import Mathlib

/-!
# Verification of the fused RoPE validation-and-dispatch shim

Shallow embedding of `csrc/megatron/fused_rotary_positional_embedding.cpp`:
the two dispatcher functions `fused_rope::fwd` and `fused_rope::bwd`, which
run a sequence of `TORCH_CHECK` shape/dtype validations and then delegate to
the external CUDA kernels `fwd_cuda` / `bwd_cuda`.

Tensors are modelled by their metadata (shape vector, scalar type) together
with opaque contents; the external kernels are modelled as abstract
state-passing functions so that kernel invocations are observable.
-/

namespace FusedRope

/-- Scalar element types of tensors (the dispatcher only ever compares them
for equality). -/
inductive ScalarType where
  | Float
  | Half
  | BFloat16
  | Double
deriving DecidableEq, Repr

/-- A tensor as seen by the dispatcher: a shape (per-dimension size vector),
a scalar dtype, and contents.  The validation code only ever reads the
metadata; `data` stands for the tensor contents, which the checks must not
inspect. -/
structure Tensor where
  shape : List Nat
  dtype : ScalarType
  data : List Int
deriving DecidableEq, Repr

/-- `t.dim()` in ATen: the rank of the tensor. -/
def Tensor.dim (t : Tensor) : Nat := t.shape.length

/-- `t.scalar_type()` in ATen. -/
def Tensor.scalar_type (t : Tensor) : ScalarType := t.dtype

/-- Outcome of a failing check.  `invalidArgument msg` models a
`TORCH_CHECK` failure (a `c10::Error` carrying `msg`); `outOfRange` models
an out-of-bounds `t.size(i)` access, which the dispatcher must never
perform. -/
inductive CheckError where
  | invalidArgument (msg : String)
  | outOfRange
deriving DecidableEq, Repr

/-- `t.size(i)` in ATen: the size of dimension `i`, an error when `i` is not
a valid dimension index. -/
def Tensor.size (t : Tensor) (i : Nat) : Except CheckError Nat :=
  match t.shape.get? i with
  | some n => Except.ok n
  | none => Except.error CheckError.outOfRange

/-- `TORCH_CHECK(cond, msg)`: raise `InvalidArgument msg` unless `cond`. -/
def torch_check (cond : Bool) (msg : String) : Except CheckError Unit :=
  if cond then Except.ok () else Except.error (CheckError.invalidArgument msg)

/-- The validation sequence of `fused_rope::fwd`, line for line from the
source. -/
def fwd_checks (input cos sin : Tensor) : Except CheckError Unit := do
  torch_check (input.dim == 4) "expected 4D tensor"
  torch_check (cos.dim == 4) "expected 4D tensor"
  torch_check (sin.dim == 4) "expected 4D tensor"
  torch_check ((← input.size 0) == (← cos.size 0))
    "expected input and cos tensor have the same sequence length"
  torch_check ((← input.size 0) == (← sin.size 0))
    "expected input and sin tensor have the same sequence length"
  torch_check ((← cos.size 1) == 1 && (← cos.size 2) == 1)
    "expected the second and third dims of the cos tensor equal 1"
  torch_check ((← sin.size 1) == 1 && (← sin.size 2) == 1)
    "expected the second and third dims of the sin tensor equal 1"
  torch_check ((← cos.size 3) == (← sin.size 3))
    "expected cos and sin tensor have the same last dim"
  torch_check (decide ((← input.size 3) ≥ (← cos.size 3)))
    "expected the last dim of the input tensor equals or is greater than the cos tensor"
  torch_check (cos.scalar_type == sin.scalar_type)
    "expected cos and sin tensor have the same dtype"

/-- The validation sequence of `fused_rope::bwd`, line for line from the
source (same checks as `fwd_checks`, with `output_grads` in place of
`input`, and the two sequence-length messages naming `output_grads`). -/
def bwd_checks (output_grads cos sin : Tensor) : Except CheckError Unit := do
  torch_check (output_grads.dim == 4) "expected 4D tensor"
  torch_check (cos.dim == 4) "expected 4D tensor"
  torch_check (sin.dim == 4) "expected 4D tensor"
  torch_check ((← output_grads.size 0) == (← cos.size 0))
    "expected output_grads and cos tensor have the same sequence length"
  torch_check ((← output_grads.size 0) == (← sin.size 0))
    "expected output_grads and sin tensor have the same sequence length"
  torch_check ((← cos.size 1) == 1 && (← cos.size 2) == 1)
    "expected the second and third dims of the cos tensor equal 1"
  torch_check ((← sin.size 1) == 1 && (← sin.size 2) == 1)
    "expected the second and third dims of the sin tensor equal 1"
  torch_check ((← cos.size 3) == (← sin.size 3))
    "expected cos and sin tensor have the same last dim"
  torch_check (decide ((← output_grads.size 3) ≥ (← cos.size 3)))
    "expected the last dim of the output_grads tensor equals or is greater than the cos tensor"
  torch_check (cos.scalar_type == sin.scalar_type)
    "expected cos and sin tensor have the same dtype"

/-- An external kernel (`fwd_cuda` / `bwd_cuda`): an abstract function of the
three tensors and the transpose flag.  It is threaded through an abstract
state `S` so that its invocations (and their arguments) are observable. -/
def Kernel (S : Type) : Type :=
  Tensor → Tensor → Tensor → Bool → S → Tensor × S

/-- `fused_rope::fwd`: run the checks, then delegate to the kernel and return
its result.  On a failing check the error is returned and the kernel is not
applied (the state is returned untouched). -/
def fwd {S : Type} (fwd_cuda : Kernel S) (input cos sin : Tensor)
    (transpose_output : Bool) (s : S) : Except CheckError Tensor × S :=
  match fwd_checks input cos sin with
  | Except.error e => (Except.error e, s)
  | Except.ok _ =>
      let r := fwd_cuda input cos sin transpose_output s
      (Except.ok r.1, r.2)

/-- `fused_rope::bwd`: run the backward checks, then delegate to the backward
kernel. -/
def bwd {S : Type} (bwd_cuda : Kernel S) (output_grads cos sin : Tensor)
    (transpose_output : Bool) (s : S) : Except CheckError Tensor × S :=
  match bwd_checks output_grads cos sin with
  | Except.error e => (Except.error e, s)
  | Except.ok _ =>
      let r := bwd_cuda output_grads cos sin transpose_output s
      (Except.ok r.1, r.2)

/-- A recorded kernel invocation: the arguments one call received. -/
structure KernelCall where
  arg0 : Tensor
  cos : Tensor
  sin : Tensor
  transpose_output : Bool
deriving DecidableEq, Repr

/-- A spy kernel: records every invocation with its arguments and returns a
fixed tensor `r`. -/
def spyKernel (r : Tensor) : Kernel (List KernelCall) :=
  fun a c s t calls => (r, calls ++ [⟨a, c, s, t⟩])

/-- The invariants of spec section 3, stated from the spec text.  Sizes of a
rank-4 tensor are read with `getD` (which agrees with `t.size i` whenever the
rank checks hold). -/
def specSection3Invariants (input cos sin : Tensor) : Prop :=
  input.dim = 4 ∧ cos.dim = 4 ∧ sin.dim = 4 ∧
  input.shape.getD 0 0 = cos.shape.getD 0 0 ∧
  input.shape.getD 0 0 = sin.shape.getD 0 0 ∧
  cos.shape.getD 1 0 = 1 ∧ cos.shape.getD 2 0 = 1 ∧
  sin.shape.getD 1 0 = 1 ∧ sin.shape.getD 2 0 = 1 ∧
  cos.shape.getD 3 0 = sin.shape.getD 3 0 ∧
  input.shape.getD 3 0 ≥ cos.shape.getD 3 0 ∧
  cos.dtype = sin.dtype

instance (input cos sin : Tensor) :
    Decidable (specSection3Invariants input cos sin) := by
  unfold specSection3Invariants; infer_instance

/-- The ten checks of `fused_rope::fwd` as an ordered condition/message list
(conditions written with total `getD` accesses). -/
def orderedChecks (input cos sin : Tensor) : List (Bool × String) :=
  [(input.dim == 4, "expected 4D tensor"),
   (cos.dim == 4, "expected 4D tensor"),
   (sin.dim == 4, "expected 4D tensor"),
   (input.shape.getD 0 0 == cos.shape.getD 0 0,
     "expected input and cos tensor have the same sequence length"),
   (input.shape.getD 0 0 == sin.shape.getD 0 0,
     "expected input and sin tensor have the same sequence length"),
   (cos.shape.getD 1 0 == 1 && cos.shape.getD 2 0 == 1,
     "expected the second and third dims of the cos tensor equal 1"),
   (sin.shape.getD 1 0 == 1 && sin.shape.getD 2 0 == 1,
     "expected the second and third dims of the sin tensor equal 1"),
   (cos.shape.getD 3 0 == sin.shape.getD 3 0,
     "expected cos and sin tensor have the same last dim"),
   (decide (input.shape.getD 3 0 ≥ cos.shape.getD 3 0),
     "expected the last dim of the input tensor equals or is greater than the cos tensor"),
   (cos.dtype == sin.dtype,
     "expected cos and sin tensor have the same dtype")]

/-- The same ten conditions with the two `bwd` sequence-length messages. -/
def orderedChecksBwd (output_grads cos sin : Tensor) : List (Bool × String) :=
  [(output_grads.dim == 4, "expected 4D tensor"),
   (cos.dim == 4, "expected 4D tensor"),
   (sin.dim == 4, "expected 4D tensor"),
   (output_grads.shape.getD 0 0 == cos.shape.getD 0 0,
     "expected output_grads and cos tensor have the same sequence length"),
   (output_grads.shape.getD 0 0 == sin.shape.getD 0 0,
     "expected output_grads and sin tensor have the same sequence length"),
   (cos.shape.getD 1 0 == 1 && cos.shape.getD 2 0 == 1,
     "expected the second and third dims of the cos tensor equal 1"),
   (sin.shape.getD 1 0 == 1 && sin.shape.getD 2 0 == 1,
     "expected the second and third dims of the sin tensor equal 1"),
   (cos.shape.getD 3 0 == sin.shape.getD 3 0,
     "expected cos and sin tensor have the same last dim"),
   (decide (output_grads.shape.getD 3 0 ≥ cos.shape.getD 3 0),
     "expected the last dim of the output_grads tensor equals or is greater than the cos tensor"),
   (cos.dtype == sin.dtype,
     "expected cos and sin tensor have the same dtype")]

/-- Scan an ordered list of checks, reporting the first failing one. -/
def firstFailure : List (Bool × String) → Except CheckError Unit
  | [] => Except.ok ()
  | (c, m) :: rest =>
      if c then firstFailure rest
      else Except.error (CheckError.invalidArgument m)

/-- Rank-4 input of concrete scenario 1: shape (8,2,4,64). -/
def inputS1 : Tensor := ⟨[8, 2, 4, 64], ScalarType.Float, [1, 2, 3]⟩

/-- Cos table of concrete scenario 1: shape (8,1,1,32). -/
def cosS1 : Tensor := ⟨[8, 1, 1, 32], ScalarType.Float, [4]⟩

/-- Sin table of concrete scenario 1: shape (8,1,1,32). -/
def sinS1 : Tensor := ⟨[8, 1, 1, 32], ScalarType.Float, [5]⟩

/-- A rank-3 input tensor (violates only the Input rank check). -/
def input3D : Tensor := ⟨[8, 2, 4], ScalarType.Float, []⟩

/-- A rank-3 cos tensor (violates only the Cos rank check). -/
def cos3D : Tensor := ⟨[8, 1, 1], ScalarType.Float, []⟩

/-- A rank-3 sin tensor (violates only the Sin rank check). -/
def sin3D : Tensor := ⟨[8, 1, 1], ScalarType.Float, []⟩

/-- A cos tensor whose sequence length differs from `inputS1`
(violates only the input/cos sequence-length check). -/
def cosSeqBad : Tensor := ⟨[9, 1, 1, 32], ScalarType.Float, []⟩

/-- A sin tensor whose sequence length differs from `inputS1`
(violates only the input/sin sequence-length check). -/
def sinSeqBad : Tensor := ⟨[9, 1, 1, 32], ScalarType.Float, []⟩

/-- A cos tensor with a non-singleton second dim
(violates only the cos broadcast check). -/
def cosBroadcastBad : Tensor := ⟨[8, 2, 1, 32], ScalarType.Float, []⟩

/-- A sin tensor with a non-singleton third dim
(violates only the sin broadcast check). -/
def sinBroadcastBad : Tensor := ⟨[8, 1, 2, 32], ScalarType.Float, []⟩

/-- A cos tensor whose last dim differs from `sinS1`
(violates only the cos/sin last-dim check). -/
def cosLastDimBad : Tensor := ⟨[8, 1, 1, 16], ScalarType.Float, []⟩

/-- Concrete scenario 3 input: hidden width 16 < embedding width 32
(violates only the width-ordering check against `cosS1`). -/
def inputNarrow : Tensor := ⟨[8, 2, 4, 16], ScalarType.Float, []⟩

/-- A sin tensor with a dtype different from `cosS1`
(violates only the cos/sin dtype check). -/
def sinHalf : Tensor := ⟨[8, 1, 1, 32], ScalarType.Half, []⟩

/-- An input whose hidden width equals the embedding width of `cosS1`. -/
def inputWidthEq : Tensor := ⟨[8, 2, 4, 32], ScalarType.Float, []⟩

/-- An input whose dtype differs from `cosS1` and `sinS1`. -/
def inputHalf : Tensor := ⟨[8, 2, 4, 64], ScalarType.Half, []⟩

/-- `inputS1` with different batch and heads dimensions. -/
def inputBH : Tensor := ⟨[8, 3, 7, 64], ScalarType.Float, []⟩

/-- `inputS1` with different contents. -/
def inputS1Data : Tensor := ⟨[8, 2, 4, 64], ScalarType.Float, [77, -5]⟩

/-! ## Helper lemmas -/

lemma bind_torch_check (c : Bool) (m : String) (rest : Except CheckError Unit) :
    (torch_check c m >>= fun _ => rest) =
      if c then rest else Except.error (CheckError.invalidArgument m) := by
  cases c <;> rfl

lemma bind_ok {α β : Type} (a : α) (f : α → Except CheckError β) :
    (Except.ok a >>= f) = f a := rfl

lemma exists_len4 (l : List Nat) (h : l.length = 4) :
    ∃ a b c d, l = [a, b, c, d] := by
  match l, h with
  | [a, b, c, d], _ => exact ⟨a, b, c, d, rfl⟩

/-- Bridge: the forward validation sequence is exactly a first-failure scan
of the ordered check list. -/
lemma fwd_checks_eq (input cos sin : Tensor) :
    fwd_checks input cos sin = firstFailure (orderedChecks input cos sin) := by
  obtain ⟨is, idt, idata⟩ := input
  obtain ⟨cs, cdt, cdata⟩ := cos
  obtain ⟨ss, sdt, sdata⟩ := sin
  by_cases hi : is.length = 4
  · obtain ⟨a0, a1, a2, a3, rfl⟩ := exists_len4 is hi
    by_cases hc : cs.length = 4
    · obtain ⟨b0, b1, b2, b3, rfl⟩ := exists_len4 cs hc
      by_cases hs : ss.length = 4
      · obtain ⟨c0, c1, c2, c3, rfl⟩ := exists_len4 ss hs
        simp only [fwd_checks, orderedChecks, firstFailure,
          Tensor.size, Tensor.dim, Tensor.scalar_type,
          bind_torch_check, bind_ok, List.getElem?_cons_zero,
          List.getElem?_cons_succ, List.getD, Option.getD_some,
          List.get?_eq_getElem?]
        rfl
      · simp [fwd_checks, orderedChecks, firstFailure,
          Tensor.dim, Tensor.size, bind_torch_check, bind_ok, hs]
    · simp [fwd_checks, orderedChecks, firstFailure,
        Tensor.dim, Tensor.size, bind_torch_check, bind_ok, hc]
  · simp [fwd_checks, orderedChecks, firstFailure,
      Tensor.dim, bind_torch_check, bind_ok, hi]

/-- Bridge: the backward validation sequence is exactly a first-failure scan
of its ordered check list. -/
lemma bwd_checks_eq (output_grads cos sin : Tensor) :
    bwd_checks output_grads cos sin =
      firstFailure (orderedChecksBwd output_grads cos sin) := by
  obtain ⟨is, idt, idata⟩ := output_grads
  obtain ⟨cs, cdt, cdata⟩ := cos
  obtain ⟨ss, sdt, sdata⟩ := sin
  by_cases hi : is.length = 4
  · obtain ⟨a0, a1, a2, a3, rfl⟩ := exists_len4 is hi
    by_cases hc : cs.length = 4
    · obtain ⟨b0, b1, b2, b3, rfl⟩ := exists_len4 cs hc
      by_cases hs : ss.length = 4
      · obtain ⟨c0, c1, c2, c3, rfl⟩ := exists_len4 ss hs
        simp only [bwd_checks, orderedChecksBwd, firstFailure,
          Tensor.size, Tensor.dim, Tensor.scalar_type,
          bind_torch_check, bind_ok, List.getElem?_cons_zero,
          List.getElem?_cons_succ, List.getD, Option.getD_some,
          List.get?_eq_getElem?]
        rfl
      · simp [bwd_checks, orderedChecksBwd, firstFailure,
          Tensor.dim, Tensor.size, bind_torch_check, bind_ok, hs]
    · simp [bwd_checks, orderedChecksBwd, firstFailure,
        Tensor.dim, Tensor.size, bind_torch_check, bind_ok, hc]
  · simp [bwd_checks, orderedChecksBwd, firstFailure,
      Tensor.dim, bind_torch_check, bind_ok, hi]

/-- The backward check list has exactly the conditions of the forward check
list (only two messages differ). -/
lemma bwd_fwd_conditions (g cos sin : Tensor) :
    (orderedChecksBwd g cos sin).map Prod.fst =
      (orderedChecks g cos sin).map Prod.fst := rfl

lemma firstFailure_ok_iff (l : List (Bool × String)) :
    firstFailure l = Except.ok () ↔ ∀ p ∈ l, p.1 = true := by
  induction l with
  | nil => simp [firstFailure]
  | cons hd tl ih =>
      obtain ⟨c, m⟩ := hd
      cases c <;> simp [firstFailure, ih]

lemma firstFailure_error_invalid (l : List (Bool × String)) (e : CheckError)
    (h : firstFailure l = Except.error e) :
    ∃ m, e = CheckError.invalidArgument m := by
  induction l with
  | nil => simp [firstFailure] at h
  | cons hd tl ih =>
      obtain ⟨c, m⟩ := hd
      cases c
      · refine ⟨m, ?_⟩
        simpa [firstFailure] using h.symm
      · exact ih (by simpa [firstFailure] using h)

lemma firstFailure_cases (l : List (Bool × String)) :
    firstFailure l = Except.ok () ∨
      ∃ m, firstFailure l = Except.error (CheckError.invalidArgument m) := by
  cases hf : firstFailure l with
  | ok v => cases v; exact Or.inl rfl
  | error e =>
      obtain ⟨m, rfl⟩ := firstFailure_error_invalid l e hf
      exact Or.inr ⟨m, rfl⟩

lemma firstFailure_ok_iff_map (l : List (Bool × String)) :
    firstFailure l = Except.ok () ↔ ∀ b ∈ l.map Prod.fst, b = true := by
  rw [firstFailure_ok_iff]
  simp

/-- The conjunction of all conditions of the forward check list is the
section-3 invariant. -/
lemma orderedChecks_allTrue_iff (input cos sin : Tensor) :
    (∀ p ∈ orderedChecks input cos sin, p.1 = true) ↔
      specSection3Invariants input cos sin := by
  simp only [orderedChecks, specSection3Invariants, List.forall_mem_cons,
    List.forall_mem_nil, and_true, beq_iff_eq, Bool.and_eq_true,
    decide_eq_true_eq]
  tauto

lemma fwd_checks_ok_iff (input cos sin : Tensor) :
    fwd_checks input cos sin = Except.ok () ↔
      specSection3Invariants input cos sin := by
  rw [fwd_checks_eq, firstFailure_ok_iff, orderedChecks_allTrue_iff]

lemma bwd_checks_ok_iff (output_grads cos sin : Tensor) :
    bwd_checks output_grads cos sin = Except.ok () ↔
      specSection3Invariants output_grads cos sin := by
  rw [bwd_checks_eq, firstFailure_ok_iff_map, bwd_fwd_conditions,
    ← firstFailure_ok_iff_map, firstFailure_ok_iff, orderedChecks_allTrue_iff]

lemma fwd_of_checks_ok {S : Type} (k : Kernel S) (input cos sin : Tensor)
    (t : Bool) (s : S) (h : fwd_checks input cos sin = Except.ok ()) :
    fwd k input cos sin t s =
      (Except.ok (k input cos sin t s).1, (k input cos sin t s).2) := by
  simp [fwd, h]

lemma fwd_of_checks_error {S : Type} (k : Kernel S) (input cos sin : Tensor)
    (t : Bool) (s : S) (e : CheckError)
    (h : fwd_checks input cos sin = Except.error e) :
    fwd k input cos sin t s = (Except.error e, s) := by
  simp [fwd, h]

lemma bwd_of_checks_ok {S : Type} (k : Kernel S) (g cos sin : Tensor)
    (t : Bool) (s : S) (h : bwd_checks g cos sin = Except.ok ()) :
    bwd k g cos sin t s =
      (Except.ok (k g cos sin t s).1, (k g cos sin t s).2) := by
  simp [bwd, h]

lemma fwd_checks_error_invalid (input cos sin : Tensor) (e : CheckError)
    (h : fwd_checks input cos sin = Except.error e) :
    ∃ m, e = CheckError.invalidArgument m := by
  rw [fwd_checks_eq] at h
  exact firstFailure_error_invalid _ e h

/-! ## Claim theorems -/

/-- C1: for every argument tuple satisfying the section-3 invariants,
`fwd` performs no modification: it returns exactly the kernel result, and
the kernel is applied exactly once, to the unmodified Input, Cos, Sin and
TransposeOutput flag (witnessed by the recording spy kernel). -/
theorem fwd_delegates_unmodified (input cos sin : Tensor) (t : Bool)
    (h : specSection3Invariants input cos sin) :
    (∀ (S : Type) (fwd_cuda : Kernel S) (s : S),
      fwd fwd_cuda input cos sin t s =
        (Except.ok (fwd_cuda input cos sin t s).1,
          (fwd_cuda input cos sin t s).2))
    ∧ ∀ r : Tensor,
        fwd (spyKernel r) input cos sin t [] =
          (Except.ok r, [⟨input, cos, sin, t⟩]) := by
  have hok : fwd_checks input cos sin = Except.ok () :=
    (fwd_checks_ok_iff input cos sin).mpr h
  refine ⟨fun S k s => fwd_of_checks_ok k input cos sin t s hok, fun r => ?_⟩
  rw [fwd_of_checks_ok (spyKernel r) input cos sin t [] hok]
  rfl

theorem fwd_delegates_unmodified_witness :
    fwd (spyKernel sinS1) inputS1 cosS1 sinS1 true [] =
      (Except.ok sinS1, [⟨inputS1, cosS1, sinS1, true⟩]) :=
  (fwd_delegates_unmodified inputS1 cosS1 sinS1 true (by decide)).2 sinS1

/-- C2: `fwd` raises InvalidArgument iff at least one section-3 invariant is
violated; on any failing check the error is returned before the kernel is
invoked (the result and state are those of the untouched input state, for
every possible kernel). -/
theorem fwd_error_iff_invariant_violated (input cos sin : Tensor) :
    ((∃ m, fwd_checks input cos sin =
        Except.error (CheckError.invalidArgument m)) ↔
      ¬ specSection3Invariants input cos sin)
    ∧ ∀ e, fwd_checks input cos sin = Except.error e →
        ∀ (S : Type) (fwd_cuda : Kernel S) (t : Bool) (s : S),
          fwd fwd_cuda input cos sin t s = (Except.error e, s) := by
  constructor
  · constructor
    · rintro ⟨m, hm⟩ hinv
      rw [(fwd_checks_ok_iff input cos sin).mpr hinv] at hm
      cases hm
    · intro hinv
      rcases firstFailure_cases (orderedChecks input cos sin) with hok | ⟨m, hm⟩
      · exact absurd ((fwd_checks_ok_iff input cos sin).mp
          (by rw [fwd_checks_eq]; exact hok)) hinv
      · exact ⟨m, by rw [fwd_checks_eq]; exact hm⟩
  · intro e he S k t s
    exact fwd_of_checks_error k input cos sin t s e he

theorem fwd_error_iff_invariant_violated_witness :
    fwd (spyKernel sinS1) input3D cosS1 sinS1 true [] =
      (Except.error (CheckError.invalidArgument "expected 4D tensor"), []) :=
  (fwd_error_iff_invariant_violated input3D cosS1 sinS1).2 _ rfl
    (List KernelCall) (spyKernel sinS1) true []

/-- C3: when every other invariant holds, the width check fails exactly on
strict inequality `size3(Input) < size3(Cos)`; equality passes. -/
theorem fwd_width_check_is_strict (input cos sin : Tensor)
    (h1 : input.dim = 4) (h2 : cos.dim = 4) (h3 : sin.dim = 4)
    (h4 : input.shape.getD 0 0 = cos.shape.getD 0 0)
    (h5 : input.shape.getD 0 0 = sin.shape.getD 0 0)
    (h6 : cos.shape.getD 1 0 = 1) (h7 : cos.shape.getD 2 0 = 1)
    (h8 : sin.shape.getD 1 0 = 1) (h9 : sin.shape.getD 2 0 = 1)
    (h10 : cos.shape.getD 3 0 = sin.shape.getD 3 0)
    (h11 : cos.dtype = sin.dtype) :
    (fwd_checks input cos sin = Except.ok () ↔
      cos.shape.getD 3 0 ≤ input.shape.getD 3 0)
    ∧ (input.shape.getD 3 0 < cos.shape.getD 3 0 →
        fwd_checks input cos sin = Except.error (CheckError.invalidArgument
          "expected the last dim of the input tensor equals or is greater than the cos tensor")) := by
  constructor
  · rw [fwd_checks_ok_iff]
    unfold specSection3Invariants
    constructor
    · rintro ⟨-, -, -, -, -, -, -, -, -, -, hw, -⟩
      exact hw
    · intro hw
      exact ⟨h1, h2, h3, h4, h5, h6, h7, h8, h9, h10, hw, h11⟩
  · intro hlt
    have hn : ¬ (cos.shape.getD 3 0 ≤ input.shape.getD 3 0) := by omega
    have hn2 : ¬ (sin.shape.getD 3 0 ≤ input.shape.getD 3 0) := by omega
    simp only [List.getD_eq_getElem?_getD] at h4 h5 h6 h7 h8 h9 h10 hn hn2
    rw [fwd_checks_eq]
    simp [orderedChecks, firstFailure, h1, h2, h3, h4, h5, h6, h7, h8, h9,
      h10, hn, hn2]
    omega

theorem fwd_width_check_is_strict_witness :
    fwd_checks inputWidthEq cosS1 sinS1 = Except.ok () :=
  ((fwd_width_check_is_strict inputWidthEq cosS1 sinS1
      rfl rfl rfl rfl rfl rfl rfl rfl rfl rfl rfl).1).mpr (by decide)

/-- C4: backward behaves identically to forward with OutputGrads in the
Input position: its validation accepts exactly when forward validation
accepts, rejects with the same kind of error (InvalidArgument) exactly when
forward rejects, and on acceptance delegates all four arguments unmodified
to the backward kernel and returns its result. -/
theorem bwd_mirrors_fwd (output_grads cos sin : Tensor) :
    (bwd_checks output_grads cos sin = Except.ok () ↔
      fwd_checks output_grads cos sin = Except.ok ())
    ∧ (∀ e, bwd_checks output_grads cos sin = Except.error e →
        (∃ m, e = CheckError.invalidArgument m) ∧
          ∃ m2, fwd_checks output_grads cos sin =
            Except.error (CheckError.invalidArgument m2))
    ∧ (bwd_checks output_grads cos sin = Except.ok () →
        ∀ (S : Type) (bwd_cuda : Kernel S) (t : Bool) (s : S),
          bwd bwd_cuda output_grads cos sin t s =
            (Except.ok (bwd_cuda output_grads cos sin t s).1,
              (bwd_cuda output_grads cos sin t s).2)) := by
  refine ⟨?_, ?_, ?_⟩
  · rw [bwd_checks_ok_iff, fwd_checks_ok_iff]
  · intro e he
    have h1 : ∃ m, e = CheckError.invalidArgument m := by
      rw [bwd_checks_eq] at he
      exact firstFailure_error_invalid _ e he
    refine ⟨h1, ?_⟩
    have hne : ¬ fwd_checks output_grads cos sin = Except.ok () := by
      intro hok
      rw [(bwd_checks_ok_iff output_grads cos sin).mpr
        ((fwd_checks_ok_iff output_grads cos sin).mp hok)] at he
      cases he
    rcases firstFailure_cases (orderedChecks output_grads cos sin) with
      hok | ⟨m, hm⟩
    · exact absurd (by rw [fwd_checks_eq]; exact hok) hne
    · exact ⟨m, by rw [fwd_checks_eq]; exact hm⟩
  · intro hok S k t s
    exact bwd_of_checks_ok k output_grads cos sin t s hok

theorem bwd_mirrors_fwd_witness :
    bwd (spyKernel cosS1) inputS1 cosS1 sinS1 false [] =
      (Except.ok cosS1, [⟨inputS1, cosS1, sinS1, false⟩]) := by
  exact (bwd_mirrors_fwd inputS1 cosS1 sinS1).2.2 rfl (List KernelCall)
    (spyKernel cosS1) false []

/-- C5 counterexample: a rank violation on Input, on Cos, and on Sin all
produce the identical message, so two different violated invariants are not
always distinguishable by message. -/
theorem fwd_rank_messages_identical :
    fwd_checks input3D cosS1 sinS1 =
        Except.error (CheckError.invalidArgument "expected 4D tensor") ∧
      fwd_checks inputS1 cos3D sinS1 =
        Except.error (CheckError.invalidArgument "expected 4D tensor") ∧
      fwd_checks inputS1 cosS1 sin3D =
        Except.error (CheckError.invalidArgument "expected 4D tensor") :=
  ⟨rfl, rfl, rfl⟩

/-- C5 amended: each non-rank invariant, when it is the one that fails,
produces its own message naming the failed relationship, and those seven
messages together with the shared rank message are pairwise distinct; the
three rank checks all report the single message "expected 4D tensor". -/
theorem fwd_messages_distinct :
    fwd_checks input3D cosS1 sinS1 =
        Except.error (CheckError.invalidArgument "expected 4D tensor") ∧
      fwd_checks inputS1 cosSeqBad sinS1 =
        Except.error (CheckError.invalidArgument
          "expected input and cos tensor have the same sequence length") ∧
      fwd_checks inputS1 cosS1 sinSeqBad =
        Except.error (CheckError.invalidArgument
          "expected input and sin tensor have the same sequence length") ∧
      fwd_checks inputS1 cosBroadcastBad sinS1 =
        Except.error (CheckError.invalidArgument
          "expected the second and third dims of the cos tensor equal 1") ∧
      fwd_checks inputS1 cosS1 sinBroadcastBad =
        Except.error (CheckError.invalidArgument
          "expected the second and third dims of the sin tensor equal 1") ∧
      fwd_checks inputS1 cosLastDimBad sinS1 =
        Except.error (CheckError.invalidArgument
          "expected cos and sin tensor have the same last dim") ∧
      fwd_checks inputNarrow cosS1 sinS1 =
        Except.error (CheckError.invalidArgument
          "expected the last dim of the input tensor equals or is greater than the cos tensor") ∧
      fwd_checks inputS1 cosS1 sinHalf =
        Except.error (CheckError.invalidArgument
          "expected cos and sin tensor have the same dtype") ∧
      List.Pairwise (fun a b => a ≠ b)
        ["expected 4D tensor",
         "expected input and cos tensor have the same sequence length",
         "expected input and sin tensor have the same sequence length",
         "expected the second and third dims of the cos tensor equal 1",
         "expected the second and third dims of the sin tensor equal 1",
         "expected cos and sin tensor have the same last dim",
         "expected the last dim of the input tensor equals or is greater than the cos tensor",
         "expected cos and sin tensor have the same dtype"] := by
  refine ⟨rfl, rfl, rfl, rfl, rfl, rfl, rfl, rfl, ?_⟩
  decide

/-- C6: the validation outcome is a pure function of the shape and dtype
metadata of the arguments only: two calls whose tensors agree in shape and
dtype but differ arbitrarily in contents validate identically. -/
theorem fwd_checks_metadata_only (input input2 cos cos2 sin sin2 : Tensor)
    (hi : input.shape = input2.shape) (hid : input.dtype = input2.dtype)
    (hc : cos.shape = cos2.shape) (hcd : cos.dtype = cos2.dtype)
    (hs : sin.shape = sin2.shape) (hsd : sin.dtype = sin2.dtype) :
    fwd_checks input cos sin = fwd_checks input2 cos2 sin2 := by
  rw [fwd_checks_eq, fwd_checks_eq]
  have he : orderedChecks input cos sin = orderedChecks input2 cos2 sin2 := by
    simp [orderedChecks, Tensor.dim, hi, hid, hc, hcd, hs, hsd]
  rw [he]

theorem fwd_checks_metadata_only_witness :
    fwd_checks inputS1 cosS1 sinS1 = fwd_checks inputS1Data cosS1 sinS1 :=
  fwd_checks_metadata_only inputS1 inputS1Data cosS1 cosS1 sinS1 sinS1
    rfl rfl rfl rfl rfl rfl

/-- C7: the error reported is that of the first failing check in the fixed
validation order (the first-failure scan of the ordered check list), and
once all invariants hold the order is irrelevant: every permutation of the
check list also passes. -/
theorem fwd_first_failing_check_reported (input cos sin : Tensor) :
    fwd_checks input cos sin = firstFailure (orderedChecks input cos sin)
    ∧ (specSection3Invariants input cos sin →
        ∀ l, l.Perm (orderedChecks input cos sin) →
          firstFailure l = Except.ok ()) := by
  refine ⟨fwd_checks_eq input cos sin, fun h l hp => ?_⟩
  rw [firstFailure_ok_iff]
  intro p hpmem
  exact ((orderedChecks_allTrue_iff input cos sin).mpr h) p
    (hp.mem_iff.mp hpmem)

theorem fwd_first_failing_check_reported_witness :
    firstFailure ((orderedChecks inputS1 cosS1 sinS1).reverse) =
      Except.ok () :=
  (fwd_first_failing_check_reported inputS1 cosS1 sinS1).2 (by decide) _
    (List.reverse_perm _)

/-- C8: validation never performs an out-of-range dimension access: for
every argument tuple (any ranks), both the forward and the backward check
sequence either pass or fail with InvalidArgument — the out-of-range
outcome is unreachable. -/
theorem checks_never_out_of_range (a cos sin : Tensor) :
    (fwd_checks a cos sin = Except.ok () ∨
      ∃ m, fwd_checks a cos sin =
        Except.error (CheckError.invalidArgument m))
    ∧ (bwd_checks a cos sin = Except.ok () ∨
      ∃ m, bwd_checks a cos sin =
        Except.error (CheckError.invalidArgument m)) := by
  constructor
  · rw [fwd_checks_eq]
    exact firstFailure_cases _
  · rw [bwd_checks_eq]
    exact firstFailure_cases _

/-- C9: validation places no constraint on the dtype of Input relative to
Cos and Sin: under the section-3 invariants it passes and delegates even
when the Input dtype differs from the Cos dtype, and replacing the Input
dtype by anything never changes the validation outcome. -/
theorem fwd_no_input_dtype_constraint (input cos sin : Tensor) (t : Bool)
    (h : specSection3Invariants input cos sin)
    (hd : input.dtype ≠ cos.dtype) :
    fwd_checks input cos sin = Except.ok ()
    ∧ (∀ (S : Type) (fwd_cuda : Kernel S) (s : S),
        fwd fwd_cuda input cos sin t s =
          (Except.ok (fwd_cuda input cos sin t s).1,
            (fwd_cuda input cos sin t s).2))
    ∧ ∀ d : ScalarType,
        fwd_checks ⟨input.shape, d, input.data⟩ cos sin =
          fwd_checks input cos sin := by
  have hok := (fwd_checks_ok_iff input cos sin).mpr h
  refine ⟨hok, fun S k s => fwd_of_checks_ok k input cos sin t s hok,
    fun d => ?_⟩
  rw [fwd_checks_eq, fwd_checks_eq]
  have he : orderedChecks ⟨input.shape, d, input.data⟩ cos sin =
      orderedChecks input cos sin := by
    simp [orderedChecks, Tensor.dim]
  rw [he]

theorem fwd_no_input_dtype_constraint_witness :
    fwd_checks inputHalf cosS1 sinS1 = Except.ok () :=
  (fwd_no_input_dtype_constraint inputHalf cosS1 sinS1 false (by decide)
    (by decide)).1

/-- C10: the validation outcome is independent of the TransposeOutput flag
and of the batch and heads dimensions of Input: two calls differing only in
those validate identically, and the flag is first used only in the
delegated kernel call. -/
theorem fwd_validation_ignores_transpose_batch_heads
    (input input2 cos sin : Tensor)
    (hlen : input.shape.length = input2.shape.length)
    (h0 : input.shape.get? 0 = input2.shape.get? 0)
    (h3 : input.shape.get? 3 = input2.shape.get? 3)
    (hd : input.dtype = input2.dtype) :
    fwd_checks input cos sin = fwd_checks input2 cos sin
    ∧ (∀ (t t2 : Bool) (S : Type) (k : Kernel S) (s : S) (e : CheckError),
        fwd_checks input cos sin = Except.error e →
          fwd k input cos sin t s = fwd k input cos sin t2 s)
    ∧ ∀ (t : Bool) (S : Type) (k : Kernel S) (s : S),
        fwd_checks input cos sin = Except.ok () →
          fwd k input cos sin t s =
            (Except.ok (k input cos sin t s).1, (k input cos sin t s).2) := by
  refine ⟨?_, ?_, ?_⟩
  · rw [fwd_checks_eq, fwd_checks_eq]
    have e0 : input.shape[0]? = input2.shape[0]? := by
      rw [← List.get?_eq_getElem?, ← List.get?_eq_getElem?, h0]
    have e3 : input.shape[3]? = input2.shape[3]? := by
      rw [← List.get?_eq_getElem?, ← List.get?_eq_getElem?, h3]
    have he : orderedChecks input cos sin = orderedChecks input2 cos sin := by
      simp [orderedChecks, Tensor.dim, hlen, e0, e3]
    rw [he]
  · intro t t2 S k s e he
    rw [fwd_of_checks_error k input cos sin t s e he,
      fwd_of_checks_error k input cos sin t2 s e he]
  · intro t S k s hok
    exact fwd_of_checks_ok k input cos sin t s hok

theorem fwd_validation_ignores_transpose_batch_heads_witness :
    fwd_checks inputS1 cosS1 sinS1 = fwd_checks inputBH cosS1 sinS1 :=
  (fwd_validation_ignores_transpose_batch_heads inputS1 inputBH cosS1 sinS1
    rfl rfl rfl rfl).1

end FusedRope
